import Mathlib

/-!
Verification of the probe-fusion decision engine of the server-monitoring
dashboard (`server-monitor.js`).  The JavaScript source is shallowly embedded:
pure logic becomes Lean functions, probe I/O becomes explicit event
parameters, the process-wide SSH cache becomes explicit state passing, and
JavaScript exceptions become `Except`.
-/

/-- JavaScript values as they appear in parsed JSON plus the `undefined`
value (`undefined`), which is what property access on a missing key yields. -/
inductive JsValue where
  | undefined : JsValue
  | null : JsValue
  | bool : Bool → JsValue
  | num : Int → JsValue
  | str : String → JsValue
  | arr : List JsValue → JsValue
  | obj : List (String × JsValue) → JsValue

/-- JavaScript `String.split` with a one-character separator: the empty
string splits to `[""]`, adjacent separators produce empty fields. -/
def splitChars (sep : Char) : List Char → List (List Char)
  | [] => [[]]
  | c :: cs =>
      if c = sep then [] :: splitChars sep cs
      else
        match splitChars sep cs with
        | g :: gs => (c :: g) :: gs
        | [] => [[c]]

def jsSplit (s : String) (sep : Char) : List String :=
  (splitChars sep s.toList).map String.mk

def digitsVal (cs : List Char) : Nat :=
  cs.foldl (fun a c => a * 10 + (c.toNat - 48)) 0

/-- A JS array index: property names that are canonical numeric strings
(digits without a leading zero, except `"0"` itself) address elements; any
other property of an array is absent. -/
def canonicalIndex : List Char → Option Nat
  | [] => none
  | [c] => if c.isDigit then some (c.toNat - 48) else none
  | c :: rest =>
      if c.isDigit && !(c = '0') && rest.all Char.isDigit then
        some (digitsVal (c :: rest))
      else none

/-- One step of JavaScript optional-chained property access
`current?.[prop]`: `undefined`/`null` short-circuit to `undefined`, object
access looks the key up, array access interprets the key as an index, and
property access on a primitive yields `undefined`. -/
def jsIndex (current : JsValue) (prop : String) : JsValue :=
  match current with
  | .undefined => .undefined
  | .null => .undefined
  | .obj fields =>
      match fields.find? (fun p => p.1 = prop) with
      | some p => p.2
      | none => .undefined
  | .arr xs =>
      match canonicalIndex prop.toList with
      | some i => (xs.get? i).getD .undefined
      | none => .undefined
  | _ => .undefined

/-- The source function getValueByPath:
a dot-split of the path, reduced over optional-chained access from the
parsed object. -/
def getValueByPath (obj : JsValue) (path : String) : JsValue :=
  (jsSplit path ('.')).foldl jsIndex obj

/-- JavaScript strict equality `===` on the values that can meet in the body
assertion: `undefined`, `null` and the scalar kinds compare structurally;
two array or object operands are distinct heap references there (one parsed
from the response body, one from the configuration), so `===` is `false`. -/
def strictEq (a b : JsValue) : Bool :=
  match a, b with
  | .undefined, .undefined => true
  | .null, .null => true
  | .bool x, .bool y => x == y
  | .num x, .num y => x == y
  | .str x, .str y => x == y
  | _, _ => false

/-- The configured `expectedResponse` object: a dot-separated `path` and the
expected scalar `value`. -/
structure BodyAssertion where
  path : String
  value : JsValue

/-- The `responseCheckDetails` object built by `checkApi` (the JS field
`match` is spelled `isMatch`; an absent `parseError` field is `false`). -/
structure RespCheck where
  path : String
  expected : JsValue
  actual : JsValue
  isMatch : Bool
  parseError : Bool

/-- The outcome object resolved by `checkApi`.  `responseOk := none` models
the JavaScript `null` (the not-applicable value); `statusCode := none`
models `null`.  `success` stores the truthiness of the JS expression
`statusOk && responseOk` (its only uses are in boolean position). -/
structure ApiOutcome where
  success : Bool
  statusCode : Option Nat
  statusOk : Bool
  responseOk : Option Bool
  responseCheckDetails : Option RespCheck
  error : Option String

/-- What the single HTTP GET of `checkApi` can observe: the race timeout, a
transport error (DNS/refused/TLS, or the request timeout event), or a
response with a status code and a body.  `body := none` means the body is
not valid JSON (`JSON.parse` throws). -/
inductive HttpEvent where
  | timeout : HttpEvent
  | transportError : String → HttpEvent
  | response : Nat → Option JsValue → HttpEvent

/-- The probe checkApi(target, timeout, expectedStatus, expectedResponse),
as a function of the observed HTTP event. -/
def checkApi (ev : HttpEvent) (expectedStatus : Nat)
    (expectedResponse : Option BodyAssertion) : ApiOutcome :=
  match ev with
  | .timeout =>
      { success := false, statusCode := none, statusOk := false,
        responseOk := none, responseCheckDetails := none,
        error := some ("Timeout") }
  | .transportError msg =>
      { success := false, statusCode := none, statusOk := false,
        responseOk := none, responseCheckDetails := none, error := some msg }
  | .response code body =>
      let statusOk : Bool := code = expectedStatus
      match expectedResponse with
      | some assertion =>
          if statusOk then
            match body with
            | some jsonData =>
                let actual := getValueByPath jsonData assertion.path
                let responseOk := strictEq actual assertion.value
                { success := statusOk && responseOk, statusCode := some code,
                  statusOk := statusOk, responseOk := some responseOk,
                  responseCheckDetails := some
                    { path := assertion.path, expected := assertion.value,
                      actual := actual, isMatch := responseOk,
                      parseError := false },
                  error := none }
            | none =>
                { success := false, statusCode := some code,
                  statusOk := statusOk, responseOk := some false,
                  responseCheckDetails := some
                    { path := assertion.path, expected := assertion.value,
                      actual := .null, isMatch := false, parseError := true },
                  error := none }
          else
            { success := false, statusCode := some code, statusOk := statusOk,
              responseOk := some true, responseCheckDetails := none,
              error := none }
      | none =>
          { success := statusOk && true, statusCode := some code,
            statusOk := statusOk, responseOk := some true,
            responseCheckDetails := none, error := none }

/-- Characters matched by the regex class `\s` that occur in captured MOTD
output (space, tab, newline, carriage return, vertical tab, form feed). -/
def isRegexWs (c : Char) : Bool :=
  c = ' ' || c = '\t' || c = '\n' || c = '\r' ||
    c.toNat = 11 || c.toNat = 12

/-- Case-insensitive literal match of `pat` at the head of `s`, returning the
rest of `s` on success (the `/i` flag of the MOTD regexes). -/
def litAt : List Char → List Char → Option (List Char)
  | [], rest => some rest
  | _ :: _, [] => none
  | p :: ps, c :: cs => if p.toLower = c.toLower then litAt ps cs else none

/-- Split a maximal leading digit run (`\d+` is greedy and no shorter run can
make the follow-up whitespace match, so the maximal run is the regex run). -/
def takeDigits : List Char → List Char × List Char
  | [] => ([], [])
  | c :: cs =>
      if c.isDigit then
        let p := takeDigits cs
        (c :: p.1, p.2)
      else ([], c :: cs)

/-- Require at least one `\s`, then skip the maximal run (`\s+`). -/
def skipWsRest : List Char → List Char
  | [] => []
  | c :: cs => if isRegexWs c then skipWsRest cs else c :: cs

def skipWs1 : List Char → Option (List Char)
  | [] => none
  | c :: cs => if isRegexWs c then some (skipWsRest cs) else none

/-- Optional case-insensitive `s` (the regex `s?` under `/i`). -/
def optS : List Char → List Char
  | [] => []
  | c :: cs => if c.toLower = 's' then cs else c :: cs

/-- Match `/(\d+)\s+updates?\s+can be applied immediately/i` anchored at the
given position; returns the captured digit run. -/
def updatesMatchAt (s : List Char) : Option String :=
  let p := takeDigits s
  if p.1.isEmpty then none
  else
    match skipWs1 p.2 with
    | none => none
    | some r1 =>
        match litAt (("update").toList) r1 with
        | none => none
        | some r2 =>
            match skipWs1 (optS r2) with
            | none => none
            | some r3 =>
                match litAt (("can be applied immediately").toList) r3 with
                | none => none
                | some _ => some (String.mk p.1)

/-- Leftmost match of the updates regex over the whole output. -/
def findUpdates : List Char → Option String
  | [] => none
  | c :: cs =>
      match updatesMatchAt (c :: cs) with
      | some d => some d
      | none => findUpdates cs

/-- Match
`/(\d+)\s+of these updates?\s+(?:is|are)\s+(?:a )?standard security updates?/i`
anchored at the given position; returns the captured digit run. -/
def securityMatchAt (s : List Char) : Option String :=
  let p := takeDigits s
  if p.1.isEmpty then none
  else
    match skipWs1 p.2 with
    | none => none
    | some r1 =>
        match litAt (("of these update").toList) r1 with
        | none => none
        | some r2 =>
            match skipWs1 (optS r2) with
            | none => none
            | some r3 =>
                let isAre :=
                  match litAt (("is").toList) r3 with
                  | some r => some r
                  | none => litAt (("are").toList) r3
                match isAre with
                | none => none
                | some r4 =>
                    match skipWs1 r4 with
                    | none => none
                    | some r5 =>
                        let r6 :=
                          match litAt (("a ").toList) r5 with
                          | some r => r
                          | none => r5
                        match litAt (("standard security update").toList) r6 with
                        | none => none
                        | some _ => some (String.mk p.1)

def findSecurity : List Char → Option String
  | [] => none
  | c :: cs =>
      match securityMatchAt (c :: cs) with
      | some d => some d
      | none => findSecurity cs

/-- Case-sensitive substring containment (JavaScript `String.includes`). -/
def isHeadMatch : List Char → List Char → Bool
  | [], _ => true
  | _ :: _, [] => false
  | p :: ps, c :: cs => p = c && isHeadMatch ps cs

def containsSub : List Char → List Char → Bool
  | pat, [] => pat.isEmpty
  | pat, c :: cs => isHeadMatch pat (c :: cs) || containsSub pat cs

def containsSubstr (s pat : String) : Bool :=
  containsSub pat.toList s.toList

/-- Numeric value of a captured digit run (JavaScript `+String(m[1])`). -/
def digitsToNat (s : String) : Nat :=
  s.toList.foldl (fun a c => a * 10 + (c.toNat - 48)) 0

/-- The `updatesInfo` string built on SSH session close: empty string (mapped
to `null` via `updatesInfo || null`, hence `none` here) unless the updates
regex matched a nonzero count. -/
def motdUpdatesInfo (output : String) : Option String :=
  match findUpdates output.toList with
  | none => none
  | some ds =>
      if digitsToNat ds = 0 then none
      else
        some (ds ++ (" updates") ++
          (match findSecurity output.toList with
           | some sd => (" (") ++ sd ++ (" security)")
           | none => ("")))

/-- The object resolved by `checkSSH`.  The timeout resolve carries no
`lastCheck` field (`none`); `timestamp` is only ever written by the cache-hit
mutation in the ssh branch of `checkServer`. -/
structure SshOutcome where
  success : Bool
  error : Option String
  motd : Option String
  rebootRequired : Bool
  updates : Option String
  lastCheck : Option String
  timestamp : Option Int
deriving DecidableEq

/-- What the spawned ssh session can observe: the 15 s hard kill, or a close
with the combined stdout/stderr output. -/
inductive SshEvent where
  | timeout : SshEvent
  | close : String → SshEvent
deriving DecidableEq

/-- The probe checkSSH(host, port, username), as a function of the observed
session event; `nowStr` is the locale time string at resolve time. -/
def checkSSH (ev : SshEvent) (nowStr : String) : SshOutcome :=
  match ev with
  | .timeout =>
      { success := false, error := some ("SSH timeout"), motd := none,
        rebootRequired := false, updates := none, lastCheck := none,
        timestamp := none }
  | .close output =>
      { success := true, error := none, motd := some output,
        rebootRequired := containsSubstr output ("System restart required"),
        updates := motdUpdatesInfo output,
        lastCheck := some nowStr, timestamp := none }

/-- One entry of `this.sshCache`: the resolved outcome and the `Date.now()`
at which it was stored. -/
structure CacheEntry where
  result : SshOutcome
  timestamp : Int
deriving DecidableEq

/-- The process-wide cache object, keyed by the cache-key string. -/
def SshCache : Type := String → Option CacheEntry

def emptyCache : SshCache := fun _ => none

/-- Property write `this.sshCache[key] = entry`. -/
def insertCache (cache : SshCache) (key : String) (e : CacheEntry) : SshCache :=
  fun k => if k = key then some e else cache k

/-- JavaScript truthiness of a string-or-null/undefined value (the empty
string is falsy). -/
def jsStrOptTruthy : Option String → Bool
  | none => false
  | some s => !(s = "")

/-- JavaScript `a || b` where `a` is a string-or-null/undefined value. -/
def jsOrStr (a : Option String) (b : String) : String :=
  match a with
  | none => b
  | some s => if s = "" then b else s

/-- JavaScript `a || d` where `a` is a number-or-undefined value (used for
`server.sshCheckInterval || 3600000`; `0` is falsy). -/
def jsOrNum (a : Option Int) (d : Int) : Int :=
  match a with
  | none => d
  | some n => if n = 0 then d else n

/-- The HTTP-code display token with fallback (a `null` — or falsy `0` —
status code renders as `N/A`). -/
def httpCodeDisplay : Option Nat → String
  | none => ("N/A")
  | some n => if n = 0 then ("N/A") else toString n

/-- The raw HTTP-code interpolation with no fallback (a `null` status code
renders as the string `null`). -/
def httpCodeRaw : Option Nat → String
  | none => ("null")
  | some n => toString n

/-- Status, detail and error produced by the api branch of `checkServer`. -/
structure ApiFusion where
  status : String
  statusDetails : Option String
  error : Option String
deriving DecidableEq

/-- The api-only fusion chain of `checkServer` (rules at lines 335-347 of the
source followed by the final selection that takes `UP` when the outcome
field `success` is truthy and the chain status otherwise). -/
def fuseApi (r : ApiOutcome) (expectedStatus : Nat) : ApiFusion :=
  let sd : String × Option String :=
    if !r.statusOk && r.responseOk = none then
      (("DOWN"), some (("HTTP ") ++ httpCodeDisplay r.statusCode))
    else if !r.statusOk then
      (("DOWN"), some (("HTTP ") ++ httpCodeRaw r.statusCode ++
        (" (expected ") ++ toString expectedStatus ++ (")")))
    else if r.responseOk = some false then
      (("UNHEALTHY"), some ("Health check failed"))
    else (("UP"), none)
  { status := if r.success then ("UP") else sd.1,
    statusDetails := sd.2, error := r.error }

/-- Status, detail and combined error of the unified (type all) branch. -/
structure UnifiedFusion where
  status : String
  statusDetails : Option String
  combinedError : Option String
deriving DecidableEq

/-- Rules 1-5 of the unified fusion (ping + API, before the SSH overlay). -/
def fuseUnifiedBase (pingOk : Bool) (r : ApiOutcome)
    (expectedStatus : Nat) : UnifiedFusion :=
  if !pingOk && !r.success then
    { status := ("DOWN"),
      statusDetails := some ("Ping failed + API unreachable"),
      combinedError := some ("Both ping and API failed") }
  else if !pingOk then
    { status := ("DEGRADED"),
      statusDetails := some ("Ping failed but API responding"),
      combinedError := some ("Network issue (ping failed)") }
  else if !r.statusOk && r.responseOk = none then
    { status := ("DEGRADED"),
      statusDetails := some ("Ping OK but API unreachable"),
      combinedError :=
        some (jsOrStr r.error (("HTTP ") ++ httpCodeDisplay r.statusCode)) }
  else if !r.statusOk then
    { status := ("DEGRADED"),
      statusDetails := some (("Ping OK, HTTP ") ++ httpCodeRaw r.statusCode ++
        (" (expected ") ++ toString expectedStatus ++ (")")),
      combinedError := some ("API returned wrong status") }
  else if r.responseOk = some false then
    { status := ("UNHEALTHY"),
      statusDetails := some ("Ping OK, health check failed"),
      combinedError := some ("Health check failed") }
  else { status := ("UP"), statusDetails := none, combinedError := none }

/-- The SSH overlay applied after rules 1-5 (lines 437-448 of the source):
a failing session, or maintenance flags, may only change a status that is
still `UP`. -/
def sshOverlay (base : UnifiedFusion) (s : Option SshOutcome) : UnifiedFusion :=
  match s with
  | none => base
  | some ssh =>
      if !ssh.success then
        if base.status = ("UP") then
          { status := ("DEGRADED"),
            statusDetails := some ("SSH check failed"),
            combinedError := ssh.error }
        else base
      else if ssh.rebootRequired || jsStrOptTruthy ssh.updates then
        if base.status = ("UP") then
          { status := ("MAINTENANCE"),
            statusDetails := some ("Updates/reboot pending"),
            combinedError := base.combinedError }
        else base
      else base

/-- Full unified fusion: ping/API rules 1-5, then the SSH overlay. -/
def fuseUnified (pingOk : Bool) (r : ApiOutcome) (s : Option SshOutcome)
    (expectedStatus : Nat) : UnifiedFusion :=
  sshOverlay (fuseUnifiedBase pingOk r expectedStatus) s

/-- The `ssh` sub-object of a unified target. -/
structure SshConfig where
  enabled : Bool
  host : Option String
  port : Option Nat
  username : Option String
  checkInterval : Option Int
deriving DecidableEq

/-- A configured server (leaf target).  Fields not meaningful for a given
`type` are simply never read, as in the JavaScript object. -/
structure Server where
  name : String
  type : String
  target : String
  apiTarget : String
  timeout : Nat
  expectedStatus : Nat
  expectedResponse : Option BodyAssertion
  host : String
  port : Option Nat
  username : Option String
  sshCheckInterval : Option Int
  ssh : Option SshConfig
  lastCheck : Option String
  groupName : Option String

/-- The events each probe of one evaluation would observe, plus the clock.
A `.error` event models the probe call throwing (the `await` rejecting);
`nowMs` is `Date.now()` and `nowStr` is `getLocaleTimeString()`. -/
structure ProbeEnv where
  pingEv : Except String Bool
  apiEv : Except String HttpEvent
  sshEv : Except String SshEvent
  nowMs : Int
  nowStr : String

/-- The JS value of `server.port || server.username && 22` as rendered inside
a template literal (`undefined` renders as the string `undefined`). -/
def renderedPortFallback : Option String → String
  | none => ("undefined")
  | some u => if u = "" then ("") else ("22")

def renderedPort (port : Option Nat) (username : Option String) : String :=
  match port with
  | some p => if p = 0 then renderedPortFallback username else toString p
  | none => renderedPortFallback username

/-- Truthiness of the JS value `server.port || server.username && 22`. -/
def sshPortTruthy (port : Option Nat) (username : Option String) : Bool :=
  match port with
  | some p => if p = 0 then jsStrOptTruthy username else true
  | none => jsStrOptTruthy username

/-- A possibly-undefined string inside a template literal. -/
def jsShowOptStr : Option String → String
  | none => ("undefined")
  | some s => s

/-- The cache key template of host, rendered port and rendered username,
joined by colons. -/
def sshCacheKey (host : String) (port : Option Nat)
    (username : Option String) : String :=
  host ++ (":") ++ renderedPort port username ++ (":") ++ jsShowOptStr username

/-- The displayed ssh target: username and an at-sign when the username is
truthy, then the host, then a colon and the port when the port value is
truthy. -/
def sshTargetDisplay (host : String) (port : Option Nat)
    (username : Option String) : String :=
  (match username with
   | some u => if u = "" then ("") else u ++ ("@")
   | none => ("")) ++ host ++
  (if sshPortTruthy port username then (":") ++ renderedPort port username
   else (""))

/-- The `details` object of a check result; one shape per branch. -/
inductive Details where
  | noDetails : Details
  | ssh : Bool → Option String → Details
  | api : Bool → Option Bool → Option RespCheck → Option String → Details
  | unified : Bool → Bool → Option Bool → Option RespCheck → Option String →
      Option Bool → Option String → Details

/-- The per-target check result built by `checkServer`. -/
structure Result where
  name : String
  type : String
  target : String
  status : String
  statusCode : String
  lastCheck : String
  error : Option String
  details : Details
  sshInfo : Option SshOutcome
  groupName : Option String

/-- Outcome of one cache consultation: the outcome handed to the rest of the
branch, the cache afterwards, and whether the underlying probe was invoked
(`probed` records that `checkSSH` actually ran). -/
structure SshFetch where
  outcome : SshOutcome
  cache : SshCache
  probed : Bool

/-- Cache miss path shared by both branches: run `checkSSH` (whose `await`
may reject) and store `(outcome, Date.now())` under the key. -/
def sshProbeAndStore (env : ProbeEnv) (cache : SshCache) (key : String) :
    Except String SshFetch :=
  match env.sshEv with
  | .error m => .error m
  | .ok ev =>
      let out := checkSSH ev env.nowStr
      .ok { outcome := out,
            cache := insertCache cache key
              { result := out, timestamp := env.nowMs },
            probed := true }

/-- The cache consultation of the ssh-type branch (lines 279-294).  On a
valid hit the JS writes `sshResult.timestamp = cached.timestamp` onto the
shared outcome object, so the mutation is visible through the cache entry as
well. -/
def sshLookupOrProbeMutating (env : ProbeEnv) (cache : SshCache)
    (key : String) (interval : Int) : Except String SshFetch :=
  match cache key with
  | some e =>
      if env.nowMs - e.timestamp < interval then
        let r := { e.result with timestamp := some e.timestamp }
        .ok { outcome := r,
              cache := insertCache cache key
                { result := r, timestamp := e.timestamp },
              probed := false }
      else sshProbeAndStore env cache key
  | none => sshProbeAndStore env cache key

/-- The cache consultation of the unified branch (lines 385-399), which does
not write the timestamp onto the cached outcome. -/
def sshLookupOrProbe (env : ProbeEnv) (cache : SshCache)
    (key : String) (interval : Int) : Except String SshFetch :=
  match cache key with
  | some e =>
      if env.nowMs - e.timestamp < interval then
        .ok { outcome := e.result, cache := cache, probed := false }
      else sshProbeAndStore env cache key
  | none => sshProbeAndStore env cache key

/-- The body of the `try` block of `checkServer`: `.error` is an exception
escaping to the catch; `none` is the untouched `result` of an unknown
`server.type` (outside the configured data model). -/
def checkServerTry (server : Server) (env : ProbeEnv) (cache : SshCache) :
    Except String (Option Result × SshCache) :=
  if server.type = ("ping") then
    match env.pingEv with
    | .error m => .error m
    | .ok isAlive =>
        let r : Result :=
          { name := server.name, type := server.type,
            target := server.target,
            status := if isAlive then ("UP") else ("DOWN"),
            statusCode := if isAlive then ("✓") else ("✗"),
            lastCheck := env.nowStr, error := none, details := .noDetails,
            sshInfo := none, groupName := none }
        .ok (some r, cache)
  else if server.type = ("ssh") then
    let key := sshCacheKey server.host server.port server.username
    let interval := jsOrNum server.sshCheckInterval 3600000
    match sshLookupOrProbeMutating env cache key interval with
    | .error m => .error m
    | .ok f =>
        let sshResult := f.outcome
        let st : String × String × Option String :=
          if !sshResult.success then (("DOWN"), ("✗"), sshResult.error)
          else if sshResult.rebootRequired ||
              jsStrOptTruthy sshResult.updates then
            (("MAINTENANCE"), ("⚠"), none)
          else (("UP"), ("✓"), none)
        let r : Result :=
          { name := server.name, type := server.type,
            target := sshTargetDisplay server.host server.port server.username,
            status := st.1, statusCode := st.2.1,
            lastCheck := jsOrStr sshResult.lastCheck env.nowStr,
            error := st.2.2,
            details := .ssh sshResult.rebootRequired sshResult.updates,
            sshInfo := some sshResult, groupName := none }
        .ok (some r, f.cache)
  else if server.type = ("api") then
    match env.apiEv with
    | .error m => .error m
    | .ok ev =>
        let apiResult := checkApi ev server.expectedStatus
          server.expectedResponse
        let f := fuseApi apiResult server.expectedStatus
        let r : Result :=
          { name := server.name, type := server.type,
            target := server.target, status := f.status,
            statusCode := httpCodeDisplay apiResult.statusCode,
            lastCheck := jsOrStr server.lastCheck env.nowStr,
            error := apiResult.error,
            details := .api apiResult.statusOk apiResult.responseOk
              apiResult.responseCheckDetails f.statusDetails,
            sshInfo := none, groupName := none }
        .ok (some r, cache)
  else if server.type = ("all") then
    match env.pingEv with
    | .error m => .error m
    | .ok pingOk =>
        match env.apiEv with
        | .error m => .error m
        | .ok ev =>
            let apiResult := checkApi ev server.expectedStatus
              server.expectedResponse
            let sshStep : Except String (Option SshOutcome × SshCache) :=
              match server.ssh with
              | some cfg =>
                  if cfg.enabled then
                    let sshHost := jsOrStr cfg.host server.target
                    let key := sshCacheKey sshHost cfg.port cfg.username
                    let interval := jsOrNum cfg.checkInterval 3600000
                    match sshLookupOrProbe env cache key interval with
                    | .error m => .error m
                    | .ok f => .ok (some f.outcome, f.cache)
                  else .ok (none, cache)
              | none => .ok (none, cache)
            match sshStep with
            | .error m => .error m
            | .ok sc =>
                let f := fuseUnified pingOk apiResult sc.1
                  server.expectedStatus
                let r : Result :=
                  { name := server.name, type := server.type,
                    target := server.target ++ (" / ") ++ server.apiTarget,
                    status := f.status,
                    statusCode := if pingOk then ("✓") else ("✗"),
                    lastCheck := jsOrStr server.lastCheck env.nowStr,
                    error := f.combinedError,
                    details := .unified pingOk apiResult.statusOk
                      apiResult.responseOk apiResult.responseCheckDetails
                      f.statusDetails (sc.1.map SshOutcome.rebootRequired)
                      (sc.1.bind SshOutcome.updates),
                    sshInfo := sc.1, groupName := none }
                .ok (some r, sc.2)
  else .ok (none, cache)

/-- The result object of the `catch` block. -/
def errorResult (server : Server) (env : ProbeEnv) (msg : String) : Result :=
  { name := server.name, type := server.type, target := server.target,
    status := ("ERROR"), statusCode := ("N/A"), lastCheck := env.nowStr,
    error := some msg, details := .noDetails, sshInfo := none,
    groupName := none }

/-- Group-label attachment: when server.groupName is truthy it is written
onto the result (this runs after the catch, so it also applies to error
results; an empty group name is falsy and is not attached). -/
def attachGroup (server : Server) (r : Result) : Result :=
  match server.groupName with
  | none => r
  | some g => if g = "" then r else { r with groupName := some g }

/-- The full checkServer(server): the try body, the catch boundary mapping
a thrown message to an ERROR result, and the group-label attachment. -/
def checkServer (server : Server) (env : ProbeEnv) (cache : SshCache) :
    Option Result × SshCache :=
  match checkServerTry server env cache with
  | .ok (some r, c) => (some (attachGroup server r), c)
  | .ok (none, c) => (none, c)
  | .error m => (some (attachGroup server (errorResult server env m)), cache)

/-- A configuration entry: a leaf server, or a named group of servers (the
code flattens exactly one level, without recursion). -/
inductive ServerEntry where
  | leaf : Server → ServerEntry
  | group : String → List Server → ServerEntry

/-- The flattening loop of `checkAllServers`: group children get
`groupName = group.name` written onto them, in original order. -/
def flattenServers : List ServerEntry → List Server
  | [] => []
  | .leaf s :: rest => s :: flattenServers rest
  | .group g children :: rest =>
      children.map (fun c => { c with groupName := some g }) ++
        flattenServers rest

/-- One evaluation task per flattened target; `envOf i` is the probe
environment and the state of the shared cache as observed by task `i` (the
tasks run concurrently, so each sees its own interleaving of the shared
cache). -/
def checkAllServersAux (servers : List Server)
    (envOf : Nat → ProbeEnv × SshCache) (i : Nat) : List (Option Result) :=
  match servers with
  | [] => []
  | s :: rest =>
      (checkServer s (envOf i).1 (envOf i).2).1 ::
        checkAllServersAux rest envOf (i + 1)

/-- One cycle, checkAllServers(servers): flatten, dispatch one task per
target, and collect the results positionally. -/
def checkAllServers (entries : List ServerEntry)
    (envOf : Nat → ProbeEnv × SshCache) : List (Option Result) :=
  checkAllServersAux (flattenServers entries) envOf 0

/-- Collection model of the promise combinator: slot number i receives the
value of task number i when that task completes; `order` is the completion
order of the tasks. -/
def fillSlots {α : Type} (tasks : List α) :
    List Nat → List (Option α) → List (Option α)
  | [], slots => slots
  | i :: rest, slots => fillSlots tasks rest (slots.set i (tasks.get? i))

def promiseAllModel {α : Type} (tasks : List α) (order : List Nat) :
    List (Option α) :=
  fillSlots tasks order (List.replicate tasks.length none)

/-- The divisor PING_IN_MILLISECONDS, 1000 on Linux and 1 elsewhere
(line 23 of the source). -/
def PING_IN_MILLISECONDS (isLinux : Bool) : Nat :=
  if isLinux then 1000 else 1

/-- The `-W` wait argument: `Math.floor(timeout / PING_IN_MILLISECONDS)`. -/
def pingWait (isLinux : Bool) (timeout : Nat) : Nat :=
  timeout / PING_IN_MILLISECONDS isLinux

/-- The spawned ping command line. -/
def pingCommand (isLinux : Bool) (timeout : Nat) (target : String) : String :=
  ("ping -c 1 -W ") ++ toString (pingWait isLinux timeout) ++ (" ") ++ target

/-- A server record with neutral field values, used to build concrete
targets in closed statements. -/
def baseServer : Server :=
  { name := ("srv"), type := ("ping"), target := ("t"), apiTarget := ("a"),
    timeout := 1000, expectedStatus := 200, expectedResponse := none,
    host := ("h"), port := none, username := none, sshCheckInterval := none,
    ssh := none, lastCheck := none, groupName := none }

/-- A probe environment in which every probe resolves. -/
def okEnv : ProbeEnv :=
  { pingEv := .ok true, apiEv := .ok (.response 200 none),
    sshEv := .ok (.close ("")), nowMs := 0, nowStr := ("12:00:00") }

/-- C10: the ping wait parameter handed to `-W` is
`floor(timeout / 1000)` on Linux and the unmodified millisecond timeout on
other platforms, so on Linux any timeout below 1000 ms yields a wait of 0. -/
theorem ping_wait_parameter (t : Nat) :
    pingWait true t = t / 1000 ∧ pingWait false t = t ∧
      (t < 1000 → pingWait true t = 0) := by
  refine ⟨rfl, ?_, fun h => Nat.div_eq_of_lt h⟩
  simp [pingWait, PING_IN_MILLISECONDS]

/-- Witness for C10 at a 999 ms timeout. -/
theorem ping_wait_parameter_witness :
    999 < 1000 ∧ pingWait true 999 = 0 ∧ pingWait false 999 = 999 :=
  ⟨by decide, (ping_wait_parameter 999).2.2 (by decide),
    (ping_wait_parameter 999).2.1⟩

theorem foldl_jsIndex_absent (l : List String) :
    l.foldl jsIndex .undefined = .undefined := by
  induction l with
  | nil => rfl
  | cons a l ih => rw [List.foldl_cons]; exact ih

/-- C7: dot-path resolution is total; a missing key or index at any depth
(a prefix of the path already resolving to the absent value) makes the whole
resolution absent, and the absent value compares strictly unequal to every
expected value other than the absent value and `null` themselves. -/
theorem getValueByPath_total_absent (obj : JsValue) (path : String)
    (v : JsValue) (k : Nat)
    (hmiss : ((jsSplit path ('.')).take k).foldl jsIndex obj = .undefined)
    (hv1 : v ≠ .undefined) (hv2 : v ≠ .null) :
    getValueByPath obj path = .undefined ∧
      strictEq (getValueByPath obj path) v = false := by
  have htot : getValueByPath obj path = .undefined := by
    unfold getValueByPath
    conv_lhs => rw [← List.take_append_drop k (jsSplit path ('.'))]
    rw [List.foldl_append, hmiss]
    exact foldl_jsIndex_absent _
  refine ⟨htot, ?_⟩
  rw [htot]
  cases v
  case undefined => exact absurd rfl hv1
  case null => exact absurd rfl hv2
  all_goals rfl

/-- Witness for C7: the path `b.c` is missing at depth one in an object
whose only key is `a`. -/
theorem getValueByPath_total_absent_witness :
    ((jsSplit ("b.c") ('.')).take 1).foldl jsIndex
        (.obj [(("a"), .num 1)]) = .undefined ∧
    getValueByPath (.obj [(("a"), .num 1)]) ("b.c") = .undefined ∧
    strictEq (getValueByPath (.obj [(("a"), .num 1)]) ("b.c"))
      (.str ("x")) = false :=
  ⟨rfl,
    (getValueByPath_total_absent (.obj [(("a"), .num 1)]) ("b.c")
      (.str ("x")) 1 rfl (fun h => nomatch h) (fun h => nomatch h)).1,
    (getValueByPath_total_absent (.obj [(("a"), .num 1)]) ("b.c")
      (.str ("x")) 1 rfl (fun h => nomatch h) (fun h => nomatch h)).2⟩

/-- C2 counterexample: an HTTP response whose status (500) misses the
expected one (200) yields `responseOk = some true` — the JavaScript initial
`let responseOk = true` — not the distinct not-applicable value (`none`),
both without and with a configured body assertion. -/
theorem api_bodyMatched_na_counterexample :
    (checkApi (.response 500 none) 200 none).responseOk = some true ∧
    (checkApi (.response 500 none) 200
      (some { path := ("status"), value := .str ("ok") })).responseOk
        = some true ∧
    some true ≠ (none : Option Bool) :=
  ⟨rfl, rfl, by decide⟩

/-- C2 (amended): on a received HTTP response with no configured assertion
or a mismatched status code, `bodyMatched` is `true` (the initialization
value) and no assertion is evaluated (`responseCheckDetails` stays absent);
the not-applicable value (`null`) arises exactly on timeout or transport
error. -/
theorem api_bodyMatched_true_when_not_evaluated
    (code : Nat) (body : Option JsValue) (es : Nat)
    (a : Option BodyAssertion) (m : String)
    (h : a = none ∨ code ≠ es) :
    ((checkApi (.response code body) es a).responseOk = some true ∧
      (checkApi (.response code body) es a).responseCheckDetails = none) ∧
    (checkApi .timeout es a).responseOk = none ∧
    (checkApi (.transportError m) es a).responseOk = none := by
  refine ⟨?_, rfl, rfl⟩
  rcases h with h | h
  · subst h
    exact ⟨rfl, rfl⟩
  · cases a with
    | none => exact ⟨rfl, rfl⟩
    | some assertion => simp [checkApi, h]

/-- Witness for C2 (amended) at a 500 response against expected 200. -/
theorem api_bodyMatched_true_when_not_evaluated_witness :
    ((none : Option BodyAssertion) = none ∨ 500 ≠ 200) ∧
    (((checkApi (.response 500 none) 200 none).responseOk = some true ∧
      (checkApi (.response 500 none) 200 none).responseCheckDetails = none) ∧
    (checkApi .timeout 200 none).responseOk = none ∧
    (checkApi (.transportError ("refused")) 200 none).responseOk = none) :=
  ⟨Or.inl rfl,
    api_bodyMatched_true_when_not_evaluated 500 none 200 none ("refused")
      (Or.inl rfl)⟩

/-- C6 counterexample: ping fails, API fully succeeds — the status is
`DEGRADED` as claimed, but neither diagnostic string is
`Network issue: ping failed, API responding`: the detail reads
`Ping failed but API responding` and the error `Network issue (ping failed)`. -/
theorem unified_ping_fail_api_ok_detail_counterexample :
    (fuseUnified false (checkApi (.response 200 none) 200 none) none 200).status
      = ("DEGRADED") ∧
    (fuseUnified false (checkApi (.response 200 none) 200 none) none
      200).statusDetails = some ("Ping failed but API responding") ∧
    (fuseUnified false (checkApi (.response 200 none) 200 none) none
      200).combinedError = some ("Network issue (ping failed)") ∧
    (fuseUnified false (checkApi (.response 200 none) 200 none) none
      200).statusDetails ≠ some ("Network issue: ping failed, API responding") ∧
    (fuseUnified false (checkApi (.response 200 none) 200 none) none
      200).combinedError ≠ some ("Network issue: ping failed, API responding") :=
  ⟨rfl, rfl, rfl, by decide, by decide⟩

/-- C6 (amended): whenever ping fails and the API check fully succeeds, the
unified status is `DEGRADED` with detail `Ping failed but API responding`
and combined error `Network issue (ping failed)` (not the string the claim
quotes), whatever the optional SSH outcome is. -/
theorem unified_ping_fail_api_ok_degraded
    (r : ApiOutcome) (s : Option SshOutcome) (es : Nat)
    (h : r.success = true) :
    (fuseUnified false r s es).status = ("DEGRADED") ∧
    (fuseUnified false r s es).statusDetails
      = some ("Ping failed but API responding") ∧
    (fuseUnified false r s es).combinedError
      = some ("Network issue (ping failed)") := by
  have hbase : fuseUnifiedBase false r es =
      { status := ("DEGRADED"),
        statusDetails := some ("Ping failed but API responding"),
        combinedError := some ("Network issue (ping failed)") } := by
    simp [fuseUnifiedBase, h]
  unfold fuseUnified
  rw [hbase]
  cases s with
  | none => exact ⟨rfl, rfl, rfl⟩
  | some ssh =>
      have hne : ¬ (("DEGRADED") : String) = ("UP") := by decide
      unfold sshOverlay
      by_cases hs : (!ssh.success) = true
      · simp [hs, hne]
      · by_cases hm :
          (ssh.rebootRequired || jsStrOptTruthy ssh.updates) = true
        · simp [hs, hm, hne]
        · simp [hs, hm]

/-- Witness for C6 (amended): a fully successful API outcome. -/
theorem unified_ping_fail_api_ok_degraded_witness :
    (checkApi (.response 200 none) 200 none).success = true ∧
    ((fuseUnified false (checkApi (.response 200 none) 200 none) none
        200).status = ("DEGRADED") ∧
     (fuseUnified false (checkApi (.response 200 none) 200 none) none
        200).statusDetails = some ("Ping failed but API responding") ∧
     (fuseUnified false (checkApi (.response 200 none) 200 none) none
        200).combinedError = some ("Network issue (ping failed)")) :=
  ⟨rfl, unified_ping_fail_api_ok_degraded
    (checkApi (.response 200 none) 200 none) none 200 rfl⟩

/-- Every outcome `checkApi` resolves satisfies
`success = statusOk && (responseOk == some true)` (in the source the field
stores the truthiness of `statusOk && responseOk`). -/
theorem checkApi_success_eq (ev : HttpEvent) (es : Nat)
    (a : Option BodyAssertion) :
    (checkApi ev es a).success =
      ((checkApi ev es a).statusOk &&
        ((checkApi ev es a).responseOk == some true)) := by
  cases ev with
  | timeout => rfl
  | transportError m => rfl
  | response code body =>
      cases a with
      | none =>
          by_cases h : (code = es)
          · simp [checkApi, h]
          · simp [checkApi, h]
      | some assertion =>
          by_cases h : (code = es)
          · cases body with
            | none => simp [checkApi, h]
            | some jsonData =>
                simp only [checkApi, h]
                cases hb : strictEq (getValueByPath jsonData assertion.path)
                  assertion.value <;> simp [hb, h]
          · cases body <;> simp [checkApi, h]

/-- C5: for every combination of `statusMatched`, tri-state `bodyMatched`
and transport-error presence (with `success` carrying its defining
truthiness), the api fusion yields exactly one of the three statuses:
`DOWN` iff the status did not match — with the stored transport error and
an `HTTP N/A`-style detail when the response never arrived, otherwise an
expected-vs-actual HTTP detail — `UNHEALTHY` iff the status matched and the
body assertion failed, and `UP` otherwise. -/
theorem api_fusion_total_exclusive (r : ApiOutcome) (es : Nat)
    (hr : r.success = (r.statusOk && (r.responseOk == some true))) :
    ((fuseApi r es).status = ("DOWN") ∨
      (fuseApi r es).status = ("UNHEALTHY") ∨
      (fuseApi r es).status = ("UP")) ∧
    ((fuseApi r es).status = ("DOWN") ↔ r.statusOk = false) ∧
    ((fuseApi r es).status = ("UNHEALTHY") ↔
      (r.statusOk = true ∧ r.responseOk = some false)) ∧
    ((fuseApi r es).status = ("UP") ↔
      (r.statusOk = true ∧ r.responseOk ≠ some false)) ∧
    (r.statusOk = false → r.responseOk = none →
      (fuseApi r es).statusDetails =
        some (("HTTP ") ++ httpCodeDisplay r.statusCode) ∧
      (fuseApi r es).error = r.error) ∧
    (r.statusOk = false → r.responseOk ≠ none →
      (fuseApi r es).statusDetails =
        some (("HTTP ") ++ httpCodeRaw r.statusCode ++ (" (expected ") ++
          toString es ++ (")"))) := by
  obtain ⟨suc, code, so, ro, det, err⟩ := r
  simp only at hr
  subst hr
  cases so <;> rcases ro with _ | b
  · simp [fuseApi]
  · cases b <;> simp [fuseApi]
  · simp [fuseApi]
  · cases b <;> simp [fuseApi]

/-- Witness for C5 at a transport-failure outcome (connection refused). -/
theorem api_fusion_total_exclusive_witness :
    (checkApi (.transportError ("refused")) 200 none).success =
      ((checkApi (.transportError ("refused")) 200 none).statusOk &&
        ((checkApi (.transportError ("refused")) 200 none).responseOk ==
          some true)) ∧
    (((fuseApi (checkApi (.transportError ("refused")) 200 none) 200).status
        = ("DOWN") ∨
      (fuseApi (checkApi (.transportError ("refused")) 200 none) 200).status
        = ("UNHEALTHY") ∨
      (fuseApi (checkApi (.transportError ("refused")) 200 none) 200).status
        = ("UP")) ∧
    ((fuseApi (checkApi (.transportError ("refused")) 200 none) 200).status
        = ("DOWN") ↔
      (checkApi (.transportError ("refused")) 200 none).statusOk = false) ∧
    ((fuseApi (checkApi (.transportError ("refused")) 200 none) 200).status
        = ("UNHEALTHY") ↔
      ((checkApi (.transportError ("refused")) 200 none).statusOk = true ∧
        (checkApi (.transportError ("refused")) 200 none).responseOk
          = some false)) ∧
    ((fuseApi (checkApi (.transportError ("refused")) 200 none) 200).status
        = ("UP") ↔
      ((checkApi (.transportError ("refused")) 200 none).statusOk = true ∧
        (checkApi (.transportError ("refused")) 200 none).responseOk
          ≠ some false)) ∧
    ((checkApi (.transportError ("refused")) 200 none).statusOk = false →
      (checkApi (.transportError ("refused")) 200 none).responseOk = none →
      (fuseApi (checkApi (.transportError ("refused")) 200 none)
          200).statusDetails =
        some (("HTTP ") ++ httpCodeDisplay
          (checkApi (.transportError ("refused")) 200 none).statusCode) ∧
      (fuseApi (checkApi (.transportError ("refused")) 200 none) 200).error =
        (checkApi (.transportError ("refused")) 200 none).error) ∧
    ((checkApi (.transportError ("refused")) 200 none).statusOk = false →
      (checkApi (.transportError ("refused")) 200 none).responseOk ≠ none →
      (fuseApi (checkApi (.transportError ("refused")) 200 none)
          200).statusDetails =
        some (("HTTP ") ++ httpCodeRaw
            (checkApi (.transportError ("refused")) 200 none).statusCode ++
          (" (expected ") ++ toString 200 ++ (")")))) :=
  ⟨rfl, api_fusion_total_exclusive
    (checkApi (.transportError ("refused")) 200 none) 200 rfl⟩

theorem jsStrOptTruthy_eq_isSome (o : Option String) (h : o ≠ some ("")) :
    jsStrOptTruthy o = o.isSome := by
  cases o with
  | none => rfl
  | some s =>
      have hs : ¬ s = "" := fun hs => h (by rw [hs])
      simp [jsStrOptTruthy, hs]

/-- The SSH overlay never touches a fusion record whose status is not `UP`. -/
theorem sshOverlay_not_up (base : UnifiedFusion) (s : Option SshOutcome)
    (h : ¬ base.status = ("UP")) : sshOverlay base s = base := by
  cases s with
  | none => rfl
  | some ssh =>
      unfold sshOverlay
      by_cases hs : (!ssh.success) = true
      · simp [hs, h]
      · by_cases hm :
          (ssh.rebootRequired || jsStrOptTruthy ssh.updates) = true
        · simp [hs, hm, h]
        · simp [hs, hm]

/-- C1: once ping/API rules 1-5 produced `DOWN`, `DEGRADED` or `UNHEALTHY`,
the SSH overlay leaves the status unchanged whatever the SSH outcome; it
only rewrites a baseline `UP`, to `DEGRADED` when the session was
unreachable and otherwise to `MAINTENANCE` when a reboot is required or an
updates summary is present. -/
theorem unified_ssh_overlay_only_escalates_up
    (pingOk : Bool) (r : ApiOutcome) (ssh : SshOutcome) (es : Nat)
    (hupd : ssh.updates ≠ some ("")) :
    (((fuseUnifiedBase pingOk r es).status = ("DOWN") ∨
      (fuseUnifiedBase pingOk r es).status = ("DEGRADED") ∨
      (fuseUnifiedBase pingOk r es).status = ("UNHEALTHY")) →
      (fuseUnified pingOk r (some ssh) es).status =
        (fuseUnifiedBase pingOk r es).status) ∧
    ((fuseUnifiedBase pingOk r es).status = ("UP") →
      (fuseUnified pingOk r (some ssh) es).status =
        (if ssh.success = false then ("DEGRADED")
         else if ssh.rebootRequired = true ∨ ssh.updates.isSome = true then
           ("MAINTENANCE")
         else ("UP"))) := by
  constructor
  · intro h
    have hne : ¬ (fuseUnifiedBase pingOk r es).status = ("UP") := by
      rcases h with h | h | h <;> rw [h] <;> decide
    unfold fuseUnified
    rw [sshOverlay_not_up _ _ hne]
  · intro h
    unfold fuseUnified sshOverlay
    cases hs : ssh.success with
    | false => simp [hs, h]
    | true =>
        cases hb : ssh.rebootRequired with
        | true => simp [hs, hb, h]
        | false =>
            cases hu : ssh.updates.isSome with
            | true =>
                simp [hs, hb, hu, h,
                  jsStrOptTruthy_eq_isSome ssh.updates hupd]
            | false =>
                simp [hs, hb, hu, h,
                  jsStrOptTruthy_eq_isSome ssh.updates hupd]

/-- Witness for C1: a `DEGRADED` baseline (ping down, API up) against an
unreachable SSH session, whose outcome has no updates summary. -/
theorem unified_ssh_overlay_only_escalates_up_witness :
    (checkSSH .timeout ("12:00:00")).updates ≠ some ("") ∧
    ((((fuseUnifiedBase false (checkApi (.response 200 none) 200 none)
          200).status = ("DOWN") ∨
       (fuseUnifiedBase false (checkApi (.response 200 none) 200 none)
          200).status = ("DEGRADED") ∨
       (fuseUnifiedBase false (checkApi (.response 200 none) 200 none)
          200).status = ("UNHEALTHY")) →
       (fuseUnified false (checkApi (.response 200 none) 200 none)
          (some (checkSSH .timeout ("12:00:00"))) 200).status =
         (fuseUnifiedBase false (checkApi (.response 200 none) 200 none)
            200).status) ∧
     ((fuseUnifiedBase false (checkApi (.response 200 none) 200 none)
          200).status = ("UP") →
       (fuseUnified false (checkApi (.response 200 none) 200 none)
          (some (checkSSH .timeout ("12:00:00"))) 200).status =
         (if (checkSSH .timeout ("12:00:00")).success = false then
            ("DEGRADED")
          else if (checkSSH .timeout ("12:00:00")).rebootRequired = true ∨
              (checkSSH .timeout ("12:00:00")).updates.isSome = true then
            ("MAINTENANCE")
          else ("UP")))) :=
  ⟨by decide, unified_ssh_overlay_only_escalates_up false
    (checkApi (.response 200 none) 200 none)
    (checkSSH .timeout ("12:00:00")) 200 (by decide)⟩

/-- C4: against a stored entry, a lookup strictly within `ttl` of the store
returns the cached outcome without probing (`probed = false`; the ssh branch
additionally writes the stored fetch time onto the outcome), a lookup at or
after `ttl` probes again (`probed = true`) and overwrites the entry with the
new outcome and the new fetch time, and after any first call a second call
strictly within `ttl` of the then-stored entry never probes. -/
theorem ssh_cache_ttl_discipline
    (cache : SshCache) (key : String) (ttl : Int) (env : ProbeEnv)
    (e : CacheEntry) (he : cache key = some e) :
    (env.nowMs - e.timestamp < ttl →
      sshLookupOrProbeMutating env cache key ttl =
        .ok { outcome := { e.result with timestamp := some e.timestamp },
              cache := insertCache cache key
                { result := { e.result with timestamp := some e.timestamp },
                  timestamp := e.timestamp },
              probed := false } ∧
      sshLookupOrProbe env cache key ttl =
        .ok { outcome := e.result, cache := cache, probed := false }) ∧
    (¬ env.nowMs - e.timestamp < ttl →
      ∀ ev, env.sshEv = .ok ev →
        sshLookupOrProbeMutating env cache key ttl =
          .ok { outcome := checkSSH ev env.nowStr,
                cache := insertCache cache key
                  { result := checkSSH ev env.nowStr,
                    timestamp := env.nowMs },
                probed := true } ∧
        sshLookupOrProbe env cache key ttl =
          .ok { outcome := checkSSH ev env.nowStr,
                cache := insertCache cache key
                  { result := checkSSH ev env.nowStr,
                    timestamp := env.nowMs },
                probed := true } ∧
        (insertCache cache key
          { result := checkSSH ev env.nowStr, timestamp := env.nowMs }) key =
          some { result := checkSSH ev env.nowStr, timestamp := env.nowMs }) ∧
    (∀ (env2 : ProbeEnv) (f : SshFetch),
      sshLookupOrProbeMutating env cache key ttl = .ok f →
      ∀ e1, f.cache key = some e1 → env2.nowMs - e1.timestamp < ttl →
        sshLookupOrProbeMutating env2 f.cache key ttl =
          .ok { outcome := { e1.result with timestamp := some e1.timestamp },
                cache := insertCache f.cache key
                  { result :=
                      { e1.result with timestamp := some e1.timestamp },
                    timestamp := e1.timestamp },
                probed := false }) := by
  refine ⟨?_, ?_, ?_⟩
  · intro hlt
    constructor
    · unfold sshLookupOrProbeMutating
      rw [he]
      dsimp only
      rw [if_pos hlt]
    · unfold sshLookupOrProbe
      rw [he]
      dsimp only
      rw [if_pos hlt]
  · intro hge ev hev
    refine ⟨?_, ?_, ?_⟩
    · unfold sshLookupOrProbeMutating
      rw [he]
      dsimp only
      rw [if_neg hge]
      unfold sshProbeAndStore
      rw [hev]
    · unfold sshLookupOrProbe
      rw [he]
      dsimp only
      rw [if_neg hge]
      unfold sshProbeAndStore
      rw [hev]
    · simp [insertCache]
  · intro env2 f _ e1 he1 hlt2
    unfold sshLookupOrProbeMutating
    rw [he1]
    dsimp only
    rw [if_pos hlt2]

/-- Witness for C4: an entry stored at time 100 with a 1000 ms TTL, looked
up at time 500 (hit) and, staleness-side, at time 1100 (re-probe). -/
theorem ssh_cache_ttl_discipline_witness :
    (insertCache emptyCache ("h:22:u")
        { result := checkSSH (.close ("")) ("11:00:00"), timestamp := 100 })
      ("h:22:u") =
      some { result := checkSSH (.close ("")) ("11:00:00"),
             timestamp := 100 } ∧
    ({ okEnv with nowMs := 500 } : ProbeEnv).nowMs - 100 < 1000 ∧
    ¬ ({ okEnv with nowMs := 1100 } : ProbeEnv).nowMs - 100 < 1000 ∧
    (sshLookupOrProbeMutating { okEnv with nowMs := 500 }
        (insertCache emptyCache ("h:22:u")
          { result := checkSSH (.close ("")) ("11:00:00"), timestamp := 100 })
        ("h:22:u") 1000).map SshFetch.probed = .ok false ∧
    (sshLookupOrProbeMutating { okEnv with nowMs := 1100 }
        (insertCache emptyCache ("h:22:u")
          { result := checkSSH (.close ("")) ("11:00:00"), timestamp := 100 })
        ("h:22:u") 1000).map SshFetch.probed = .ok true := by
  have h1 := ssh_cache_ttl_discipline
    (insertCache emptyCache ("h:22:u")
      { result := checkSSH (.close ("")) ("11:00:00"), timestamp := 100 })
    ("h:22:u") 1000 { okEnv with nowMs := 500 }
    { result := checkSSH (.close ("")) ("11:00:00"), timestamp := 100 }
    (by simp [insertCache])
  have h2 := ssh_cache_ttl_discipline
    (insertCache emptyCache ("h:22:u")
      { result := checkSSH (.close ("")) ("11:00:00"), timestamp := 100 })
    ("h:22:u") 1000 { okEnv with nowMs := 1100 }
    { result := checkSSH (.close ("")) ("11:00:00"), timestamp := 100 }
    (by simp [insertCache])
  refine ⟨by simp [insertCache], by decide, by decide, ?_, ?_⟩
  · rw [(h1.1 (by decide)).1]
    rfl
  · rw [((h2.2.1 (by decide)) (.close ("")) rfl).1]
    rfl

theorem attachGroup_lastCheck (server : Server) (r : Result) :
    (attachGroup server r).lastCheck = r.lastCheck := by
  unfold attachGroup
  cases server.groupName with
  | none => rfl
  | some g => by_cases hg : g = "" <;> simp [hg]

theorem attachGroup_status (server : Server) (r : Result) :
    (attachGroup server r).status = r.status := by
  unfold attachGroup
  cases server.groupName with
  | none => rfl
  | some g => by_cases hg : g = "" <;> simp [hg]

theorem attachGroup_error (server : Server) (r : Result) :
    (attachGroup server r).error = r.error := by
  unfold attachGroup
  cases server.groupName with
  | none => rfl
  | some g => by_cases hg : g = "" <;> simp [hg]

theorem attachGroup_groupName (server : Server) (r : Result) (g : String)
    (hg : server.groupName = some g) (hne : ¬ g = ("")) :
    (attachGroup server r).groupName = some g := by
  unfold attachGroup
  rw [hg]
  simp [hne]

/-- C9 (amended): an ssh-kind evaluation hitting a still-valid cache entry
whose stored outcome carries a capture time reports that original capture
time as `lastCheck` (a cached timeout outcome has none and falls back to the
time of the current cycle — see the counterexample), and the hit writes the
stored fetch timestamp onto the shared cached outcome object. -/
theorem ssh_cache_hit_lastCheck
    (server : Server) (env : ProbeEnv) (cache : SshCache) (e : CacheEntry)
    (s : String)
    (hty : server.type = ("ssh"))
    (he : cache (sshCacheKey server.host server.port server.username)
      = some e)
    (hfresh : env.nowMs - e.timestamp <
      jsOrNum server.sshCheckInterval 3600000)
    (hlc : e.result.lastCheck = some s) (hs : ¬ s = ("")) :
    ((checkServer server env cache).1.map Result.lastCheck) = some s ∧
    ((checkServer server env cache).2
        (sshCacheKey server.host server.port server.username)) =
      some { result := { e.result with timestamp := some e.timestamp },
             timestamp := e.timestamp } := by
  have hne1 : ¬ server.type = ("ping") := by rw [hty]; decide
  have hfetch : sshLookupOrProbeMutating env cache
      (sshCacheKey server.host server.port server.username)
      (jsOrNum server.sshCheckInterval 3600000) =
      .ok { outcome := { e.result with timestamp := some e.timestamp },
            cache := insertCache cache
              (sshCacheKey server.host server.port server.username)
              { result := { e.result with timestamp := some e.timestamp },
                timestamp := e.timestamp },
            probed := false } := by
    unfold sshLookupOrProbeMutating
    rw [he]
    dsimp only
    rw [if_pos hfresh]
  unfold checkServer checkServerTry
  rw [if_neg hne1, if_pos hty]
  dsimp only
  rw [hfetch]
  dsimp only
  constructor
  · simp [attachGroup_lastCheck, hlc, jsOrStr, hs]
  · simp [insertCache]

/-- Concrete ssh target, environments and caches for closed statements. -/
def cexSshServer : Server :=
  { baseServer with type := ("ssh"), host := ("h"), username := some ("u") }

def cexEnv2 : ProbeEnv :=
  { okEnv with nowMs := 500, nowStr := ("cycle-2") }

def cexTimeoutCache : SshCache :=
  insertCache emptyCache ("h:22:u")
    { result := checkSSH .timeout ("x"), timestamp := 100 }

def cexOkCache : SshCache :=
  insertCache emptyCache ("h:22:u")
    { result := checkSSH (.close ("all good")) ("11:11:11"),
      timestamp := 100 }

/-- C9 counterexample: a still-valid cached timeout outcome carries no
capture time, so the cache-hit result field `lastCheck` is the time of the
current cycle (`cycle-2`), not a time recorded when the probe originally
ran. -/
theorem ssh_cache_hit_lastCheck_counterexample :
    ((checkServer cexSshServer cexEnv2 cexTimeoutCache).1.map
        Result.lastCheck) = some ("cycle-2") ∧
    (cexTimeoutCache ("h:22:u")).map (fun e => e.result.lastCheck)
      = some none ∧
    ((500 : Int) - 100 < 3600000) :=
  ⟨rfl, rfl, by decide⟩

/-- Witness for C9 (amended): a cached successful outcome captured at
`11:11:11`, hit at cycle time `cycle-2`. -/
theorem ssh_cache_hit_lastCheck_witness :
    cexSshServer.type = ("ssh") ∧
    ((checkServer cexSshServer cexEnv2 cexOkCache).1.map Result.lastCheck)
      = some ("11:11:11") ∧
    ((checkServer cexSshServer cexEnv2 cexOkCache).2 ("h:22:u")) =
      some { result :=
               { (checkSSH (.close ("all good")) ("11:11:11")) with
                 timestamp := some 100 },
             timestamp := 100 } :=
  ⟨rfl,
    (ssh_cache_hit_lastCheck cexSshServer cexEnv2 cexOkCache
      { result := checkSSH (.close ("all good")) ("11:11:11"),
        timestamp := 100 } ("11:11:11") rfl rfl (by decide) rfl
      (by decide)).1,
    (ssh_cache_hit_lastCheck cexSshServer cexEnv2 cexOkCache
      { result := checkSSH (.close ("all good")) ("11:11:11"),
        timestamp := 100 } ("11:11:11") rfl rfl (by decide) rfl
      (by decide)).2⟩

theorem get?_set_self {α : Type} (l : List α) (i : Nat) (a : α)
    (h : i < l.length) : (l.set i a).get? i = some a := by
  induction l generalizing i with
  | nil => exact absurd h (Nat.not_lt_zero i)
  | cons x xs ih =>
      cases i with
      | zero => rfl
      | succ n => exact ih n (Nat.lt_of_succ_lt_succ h)

theorem get?_set_other {α : Type} (l : List α) (i j : Nat) (a : α)
    (h : ¬ i = j) : (l.set i a).get? j = l.get? j := by
  induction l generalizing i j with
  | nil => rfl
  | cons x xs ih =>
      cases i with
      | zero =>
          cases j with
          | zero => exact absurd rfl h
          | succ m => rfl
      | succ n =>
          cases j with
          | zero => rfl
          | succ m => exact ih n m (fun hh => h (by rw [hh]))

theorem fillSlots_length {α : Type} (tasks : List α) (order : List Nat)
    (slots : List (Option α)) :
    (fillSlots tasks order slots).length = slots.length := by
  induction order generalizing slots with
  | nil => rfl
  | cons j rest ih => rw [fillSlots, ih, List.length_set]

theorem fillSlots_get_stable {α : Type} (tasks : List α) (order : List Nat)
    (slots : List (Option α)) (i : Nat)
    (h : slots.get? i = some (tasks.get? i)) :
    (fillSlots tasks order slots).get? i = some (tasks.get? i) := by
  induction order generalizing slots with
  | nil => exact h
  | cons j rest ih =>
      rw [fillSlots]
      by_cases hij : j = i
      · subst hij
        apply ih
        have hlt : j < slots.length := by
          by_contra hh
          rw [List.get?_eq_none.mpr (Nat.le_of_not_lt hh)] at h
          exact Option.noConfusion h
        exact get?_set_self slots j _ hlt
      · apply ih
        rw [get?_set_other slots j i _ hij]
        exact h

theorem fillSlots_get_mem {α : Type} (tasks : List α) (order : List Nat)
    (slots : List (Option α)) (i : Nat)
    (hmem : i ∈ order) (hlen : i < slots.length) :
    (fillSlots tasks order slots).get? i = some (tasks.get? i) := by
  induction order generalizing slots with
  | nil => cases hmem
  | cons j rest ih =>
      rw [fillSlots]
      by_cases hij : j = i
      · subst hij
        exact fillSlots_get_stable tasks rest _ j
          (get?_set_self slots j _ hlen)
      · rcases List.mem_cons.mp hmem with h1 | h2
        · exact absurd h1.symm hij
        · exact ih (slots.set j (tasks.get? j)) h2
            (by rwa [List.length_set])

/-- Positional collection: whenever every task index occurs in
the completion order, the collected list is the task list itself, whatever
that order is. -/
theorem promiseAll_positional {α : Type} (tasks : List α) (order : List Nat)
    (h : ∀ i, i < tasks.length → i ∈ order) :
    promiseAllModel tasks order = tasks.map some := by
  apply List.ext
  intro i
  by_cases hi : i < tasks.length
  · rw [promiseAllModel,
      fillSlots_get_mem tasks order _ i (h i hi)
        (by rwa [List.length_replicate]),
      List.get?_map]
    cases htask : tasks.get? i with
    | none =>
        exact absurd (List.get?_eq_none.mp htask) (Nat.not_le_of_lt hi)
    | some a => rfl
  · have hge : tasks.length ≤ i := Nat.le_of_not_lt hi
    rw [promiseAllModel, List.get?_eq_none.mpr, List.get?_eq_none.mpr]
    · rwa [List.length_map]
    · rw [fillSlots_length, List.length_replicate]
      exact hge

theorem checkAllServersAux_get (l : List Server)
    (envOf : Nat → ProbeEnv × SshCache) (k i : Nat) :
    (checkAllServersAux l envOf k).get? i =
      (l.get? i).map
        (fun s => (checkServer s (envOf (k + i)).1 (envOf (k + i)).2).1) := by
  induction l generalizing k i with
  | nil => cases i <;> rfl
  | cons s rest ih =>
      cases i with
      | zero => rfl
      | succ n =>
          have harith : k + 1 + n = k + (n + 1) := by omega
          rw [checkAllServersAux]
          show (checkAllServersAux rest envOf (k + 1)).get? n = _
          rw [ih (k + 1) n, harith]
          rfl

theorem flattenServers_append (a b : List ServerEntry) :
    flattenServers (a ++ b) = flattenServers a ++ flattenServers b := by
  induction a with
  | nil => rfl
  | cons e rest ih =>
      cases e with
      | leaf s => simp [flattenServers, ih]
      | group g children => simp [flattenServers, ih]

/-- C3: an exception thrown during the evaluation of one target is caught at the
per-target boundary: the result is an `ERROR` status carrying the thrown
message, the shared cache is untouched, a configured group label is still
attached, and every position of the result list of a cycle is determined by
its own target and environment alone, so the fault of one target never aborts the
siblings or the cycle. -/
theorem checkServer_catches_fault
    (server : Server) (env : ProbeEnv) (cache : SshCache) (m : String)
    (h : checkServerTry server env cache = .error m) :
    ((checkServer server env cache).1.map Result.status) = some ("ERROR") ∧
    ((checkServer server env cache).1.map Result.error) = some (some m) ∧
    (checkServer server env cache).2 = cache ∧
    (∀ g, server.groupName = some g → ¬ g = ("") →
      ((checkServer server env cache).1.map Result.groupName)
        = some (some g)) ∧
    (∀ (entries : List ServerEntry) (envOf : Nat → ProbeEnv × SshCache)
        (i : Nat),
      (checkAllServers entries envOf).get? i =
        ((flattenServers entries).get? i).map
          (fun s => (checkServer s (envOf i).1 (envOf i).2).1)) := by
  have hcs : checkServer server env cache =
      (some (attachGroup server (errorResult server env m)), cache) := by
    unfold checkServer
    rw [h]
  refine ⟨?_, ?_, ?_, ?_, ?_⟩
  · rw [hcs]
    simp [attachGroup_status, errorResult]
  · rw [hcs]
    simp [attachGroup_error, errorResult]
  · rw [hcs]
  · intro g hg hne
    rw [hcs]
    simp [attachGroup_groupName server _ g hg hne]
  · intro entries envOf i
    unfold checkAllServers
    rw [checkAllServersAux_get]
    simp

/-- An environment whose ping probe throws, and a grouped target. -/
def cexFaultEnv : ProbeEnv := { okEnv with pingEv := .error ("boom") }

def cexGroupServer : Server := { baseServer with groupName := some ("g1") }

/-- Witness for C3: a ping probe rejecting with message `boom`. -/
theorem checkServer_catches_fault_witness :
    checkServerTry cexGroupServer cexFaultEnv emptyCache
      = .error ("boom") ∧
    (((checkServer cexGroupServer cexFaultEnv emptyCache).1.map
        Result.status) = some ("ERROR") ∧
     ((checkServer cexGroupServer cexFaultEnv emptyCache).1.map
        Result.error) = some (some ("boom")) ∧
     (checkServer cexGroupServer cexFaultEnv emptyCache).2 = emptyCache ∧
     (∀ g, cexGroupServer.groupName = some g → ¬ g = ("") →
       ((checkServer cexGroupServer cexFaultEnv emptyCache).1.map
          Result.groupName) = some (some g)) ∧
     (∀ (entries : List ServerEntry) (envOf : Nat → ProbeEnv × SshCache)
         (i : Nat),
       (checkAllServers entries envOf).get? i =
         ((flattenServers entries).get? i).map
           (fun s => (checkServer s (envOf i).1 (envOf i).2).1))) :=
  ⟨rfl, checkServer_catches_fault cexGroupServer cexFaultEnv emptyCache
    ("boom") rfl⟩

/-- C8: one cycle collects results positionally — whatever the completion
order of the concurrent evaluations, the collected list equals the task
list in flattened input order — every position is the evaluation of the
flattened target at that position, group entries flatten in place with
their children labelled, and every result produced for a labelled child
carries the label of its group. -/
theorem cycle_order_and_grouping
    (entries : List ServerEntry) (envOf : Nat → ProbeEnv × SshCache)
    (order : List Nat) (pre post : List ServerEntry) (g : String)
    (children : List Server)
    (horder : ∀ i, i < (checkAllServers entries envOf).length →
      i ∈ order) :
    promiseAllModel (checkAllServers entries envOf) order =
      (checkAllServers entries envOf).map some ∧
    (∀ i, (checkAllServers entries envOf).get? i =
      ((flattenServers entries).get? i).map
        (fun s => (checkServer s (envOf i).1 (envOf i).2).1)) ∧
    flattenServers (pre ++ .group g children :: post) =
      flattenServers pre ++
        children.map (fun c => { c with groupName := some g }) ++
        flattenServers post ∧
    (∀ (s : Server) (env : ProbeEnv) (cache : SshCache) (r : Result),
      s.groupName = some g → ¬ g = ("") →
      (checkServer s env cache).1 = some r → r.groupName = some g) := by
  refine ⟨?_, ?_, ?_, ?_⟩
  · exact promiseAll_positional _ order horder
  · intro i
    unfold checkAllServers
    rw [checkAllServersAux_get]
    simp
  · rw [flattenServers_append]
    simp [flattenServers, List.append_assoc]
  · intro s env cache r hg hne hr
    unfold checkServer at hr
    cases htry : checkServerTry s env cache with
    | error m =>
        rw [htry] at hr
        dsimp only at hr
        rw [← Option.some.inj hr]
        exact attachGroup_groupName s _ g hg hne
    | ok p =>
        rw [htry] at hr
        rcases p with ⟨o, c⟩
        cases o with
        | none => exact Option.noConfusion hr
        | some r0 =>
            dsimp only at hr
            rw [← Option.some.inj hr]
            exact attachGroup_groupName s _ g hg hne

/-- A two-entry configuration (a leaf and a one-child group) evaluated
against resolving probes. -/
def cexEntries : List ServerEntry :=
  [.leaf baseServer, .group ("dbs") [{ baseServer with name := ("s2") }]]

def cexEnvOf : Nat → ProbeEnv × SshCache := fun _ => (okEnv, emptyCache)

/-- Witness for C8: two tasks completing in reversed order `[1, 0]`. -/
theorem cycle_order_and_grouping_witness :
    (∀ i, i < (checkAllServers cexEntries cexEnvOf).length →
      i ∈ [1, 0]) ∧
    (promiseAllModel (checkAllServers cexEntries cexEnvOf) [1, 0] =
      (checkAllServers cexEntries cexEnvOf).map some ∧
     (∀ i, (checkAllServers cexEntries cexEnvOf).get? i =
       ((flattenServers cexEntries).get? i).map
         (fun s => (checkServer s (cexEnvOf i).1 (cexEnvOf i).2).1)) ∧
     flattenServers (([] : List ServerEntry) ++
         .group ("dbs") [{ baseServer with name := ("s2") }] :: []) =
       flattenServers [] ++
         [{ baseServer with name := ("s2") }].map
           (fun c => { c with groupName := some ("dbs") }) ++
         flattenServers [] ∧
     (∀ (s : Server) (env : ProbeEnv) (cache : SshCache) (r : Result),
       s.groupName = some ("dbs") → ¬ ("dbs" : String) = ("") →
       (checkServer s env cache).1 = some r →
         r.groupName = some ("dbs"))) :=
  ⟨by decide, cycle_order_and_grouping cexEntries cexEnvOf [1, 0] [] []
    ("dbs") [{ baseServer with name := ("s2") }] (by decide)⟩
